import Mathlib

/-!
Verification of the Logitech TrackMan Marble FX PS/2-to-USB bridge firmware
(`marble_fx.ino`). Each C function relevant to the claims is shallowly
embedded as an executable Lean definition; machine bytes are modelled as
`Nat` values below 256, `int8_t` values as `Int` in [-128, 127] with
explicit two's-complement wrapping where the C code can overflow.
-/

set_option maxRecDepth 100000

namespace MarbleFX

/-- Interpret a byte (Nat below 256, taken mod 256) as a C `int8_t` value. -/
def toInt8 (n : Nat) : Int :=
  if n % 256 < 128 then (n % 256 : Int) else (n % 256 : Int) - 256

/-- Two's-complement wrap of an `Int` into the `int8_t` range [-128, 127],
as happens on assignment/overflow of an `int8_t` variable on AVR. -/
def wrapInt8 (z : Int) : Int :=
  toInt8 (z.emod 256).toNat

/-! ## Link Receiver: `ps2_ISR`

The ISR keeps three static variables (`bit`, `data`, `parity`) plus the
global `ps2_error`; successful frames call `mbuf.push(data)`.  The state
below records those variables; `pushed` records, in order, the arguments
of the `mbuf.push` calls the ISR has made (the bytes handed to the
Mailbox).  One `ps2_ISR` step consumes one sampled data-line level `d`
(the ISR is modelled only for falling-clock invocations, the ones that
pass the initial `if (pin_CLK) return;` guard). -/

structure IsrState where
  bit : Nat
  data : Nat
  parity : Bool
  ps2_error : Nat
  pushed : List Nat
deriving Repr, DecidableEq

/-- The idle receiver state (`bit = NONE`, accumulators clear, no error). -/
def isrIdle : IsrState := ⟨0, 0, false, 0, []⟩

/-- The `error:` label of `ps2_ISR`: record the error code (the current
bit position) and fall through to `done:`, clearing `bit`, `data`,
`parity`. -/
def isrFail (s : IsrState) (b : Nat) : IsrState :=
  { s with bit := 0, data := 0, parity := false, ps2_error := b }

/-- One invocation of `ps2_ISR` (enum: NONE=0, START=1, BIT0..BIT7=2..9,
PARITY=10, STOP=11).  `d` is the sampled `pin_DATA` level. -/
def ps2_ISR (s : IsrState) (d : Bool) : IsrState :=
  let bit := s.bit + 1
  if bit = 1 then
    -- case START: data line must be low
    if d then isrFail s bit else { s with bit := bit }
  else if 2 ≤ bit ∧ bit ≤ 9 then
    -- case BIT0...BIT7: data >>= 1; if (pin_DATA) { data |= 0x80; parity ^= 1; }
    let data := s.data / 2
    if d then { s with bit := bit, data := data ||| 0x80, parity := !s.parity }
    else { s with bit := bit, data := data }
  else if bit = 10 then
    -- case PARITY: if (pin_DATA == parity) goto error;
    if d = s.parity then isrFail s bit else { s with bit := bit }
  else if bit = 11 then
    -- case STOP: if (!pin_DATA) goto error; mbuf.push(data); goto done;
    if !d then isrFail s bit
    else { s with bit := 0, data := 0, parity := false,
                  pushed := s.pushed ++ [s.data] }
  else isrFail s bit

/-- Run the ISR over a sequence of sampled data-line levels (one falling
clock edge per element). -/
def runISR (s : IsrState) (ds : List Bool) : IsrState :=
  ds.foldl ps2_ISR s

/-- The 8 data bits of a byte, LSB first, as sampled on the wire. -/
def dataBits (b : Nat) : List Bool :=
  (List.range 8).map (fun i => b.testBit i)

/-- XOR of the data bits: the value the ISR's running `parity` flag has
after the eight data-bit edges (true iff the byte has an odd number of
1 bits). -/
def oddParity (b : Nat) : Bool :=
  (dataBits b).foldl (fun a x => xor a x) false

/-- A well-formed 11-bit frame for byte `b`: start 0, data LSB first,
odd-parity bit, stop 1. -/
def validFrame (b : Nat) : List Bool :=
  false :: (dataBits b ++ [!oddParity b, true])

/-- Frame for byte `b` corrupted by an inverted start bit. -/
def invStartFrame (b : Nat) : List Bool :=
  true :: (dataBits b ++ [!oddParity b, true])

/-- Frame for byte `b` corrupted by an inverted stop bit. -/
def invStopFrame (b : Nat) : List Bool :=
  false :: (dataBits b ++ [!oddParity b, false])

/-- Frame for byte `b` carrying the wrong (inverted) parity bit. -/
def wrongParityFrame (b : Nat) : List Bool :=
  false :: (dataBits b ++ [oddParity b, true])


/-! ## Link Mailbox: class `Mousebuffer` (MBUF_SIZE = 16)

The 16-slot byte array is modelled as a total function `Nat → Nat`; the
code only ever reads and writes indices below 16 (`head`/`tail` stay
below 16 by construction).  The `SREG`/`cli` critical sections have no
observable effect in a sequential model and are dropped. -/

structure Mousebuffer where
  buf : Nat → Nat
  head : Nat
  tail : Nat

/-- Pointwise array store `buf[i] = d`. -/
def updateAt (buf : Nat → Nat) (i d : Nat) : Nat → Nat :=
  fun j => if j = i then d else buf j

/-- The constructor `Mousebuffer()`: `head = tail = 0` (array contents
are uninitialised in C; modelled as zeros). -/
def mbufInit : Mousebuffer := ⟨fun _ => 0, 0, 0⟩

/-- `Mousebuffer::push`: store at `head` and advance it unless the slot
after `head` is `tail` (buffer full), in which case the byte is dropped. -/
def Mousebuffer.push (s : Mousebuffer) (data : Nat) : Mousebuffer :=
  let next := (s.head + 1) % 16
  if next ≠ s.tail then { s with buf := updateAt s.buf s.head data, head := next }
  else s

/-- `Mousebuffer::pull`: return `buf[tail]` and advance `tail` when
non-empty, else return 0 and leave the buffer unchanged. -/
def Mousebuffer.pull (s : Mousebuffer) : Nat × Mousebuffer :=
  if s.head ≠ s.tail then (s.buf s.tail, { s with tail := (s.tail + 1) % 16 })
  else (0, s)

/-- `Mousebuffer::empty`. -/
def Mousebuffer.isEmpty (s : Mousebuffer) : Bool :=
  s.head == s.tail

/-- Push a whole list of bytes, first element first. -/
def Mousebuffer.pushAll (s : Mousebuffer) (l : List Nat) : Mousebuffer :=
  l.foldl Mousebuffer.push s

/-- Pull `n` bytes, returning them in order together with the final state. -/
def Mousebuffer.pullN (s : Mousebuffer) : Nat → List Nat × Mousebuffer
  | 0 => ([], s)
  | n + 1 =>
    let (x, s1) := s.pull
    let (xs, s2) := s1.pullN n
    (x :: xs, s2)


/-! ## Loop-context byte fetch: `mouse_ready` / `mouse_read`

`mouse_ready` spins up to ~200 ms for the ISR to fill the ring buffer,
then reports whether a byte is available; in a timeout scenario no
producer activity happens during the wait, so the wait has no effect on
the buffer and only the final emptiness test remains. -/

def mouse_ready (s : Mousebuffer) : Bool :=
  !s.isEmpty

/-- `mouse_read`: fetch a byte with wait; returns 0 on timeout. -/
def mouse_read (s : Mousebuffer) : Nat × Mousebuffer :=
  if mouse_ready s then s.pull else (0, s)

/-! ## Extended-protocol decoder: `ps2pp_decode`

Returns the C function's `bool` result together with the (possibly
updated) global `xtrabutton`. -/

def ps2pp_decode (xtrabutton b0 b1 b2 : Nat) : Bool × Nat :=
  if ¬(b0 &&& 0x48 = 0x48 ∧ b1 &&& 0x02 = 0x02) then (false, xtrabutton)
  else if b0 &&& 0x30 = 0 ∧ b1 &&& 0xf0 = 0xd0 then (true, b2 &&& 0x30)
  else (true, xtrabutton)

/-! ## Report Translator: `map_buttons` -/

def map_buttons (lefthanded : Bool) (mstat xtra : Nat) : Nat :=
  if !lefthanded then
    let ret := mstat &&& 0x07
    let ret := if xtra &&& 0x20 ≠ 0 then ret ||| 0x04 else ret
    if xtra &&& 0x10 ≠ 0 then ret ||| 0x10 else ret
  else
    let ret := if mstat &&& 0x01 ≠ 0 then 0x02 else 0
    let ret := if mstat &&& 0x02 ≠ 0 then ret ||| 0x01 else ret
    let ret := if xtra &&& 0x10 ≠ 0 then ret ||| 0x04 else ret
    if xtra &&& 0x20 ≠ 0 then ret ||| 0x10 else ret

/-- The left/right and middle/scroll-role exchange the spec describes for
the handedness swap: swap bits 0 and 1, swap bits 2 and 4, keep bit 3. -/
def exchangeLR_MS (b : Nat) : Nat :=
  (if b &&& 0x02 ≠ 0 then 0x01 else 0) |||
  (if b &&& 0x01 ≠ 0 then 0x02 else 0) |||
  (if b &&& 0x10 ≠ 0 then 0x04 else 0) |||
  (if b &&& 0x04 ≠ 0 then 0x10 else 0) |||
  (b &&& 0x08)

/-! ## Report processing in `loop()`

`processReport` models one iteration's report-handling block
(`marble_fx.ino` lines 585-630): extended-protocol decode, suspend
check, overflow check, button translation, scroll emulation or motion
emission, and button edge events.  Host-sink calls (`Mouse.move`,
`Mouse.press`, `Mouse.release`) are recorded as `Event`s. -/

inductive Event where
  | move (x y z : Int)
  | press (b : Nat)
  | release (b : Nat)
deriving Repr, DecidableEq

structure Config where
  lefthanded : Bool
  internal_scrolling : Bool
  suspended : Bool

structure LoopState where
  xtrabutton : Nat
  buttons : List Bool
  scroll_sum : Int
  ps2_error : Nat
deriving Repr, DecidableEq

def bimask : List Nat := [0x01, 0x02, 0x04, 0x10]
def bomask : List Nat := [0x01, 0x02, 0x04, 0x08]

/-- One pass of the `handle normal buttons` loop body for index `i`. -/
def buttonStep (cfg : Config) (btn : Nat) (acc : List Event × List Bool)
    (i : Nat) : List Event × List Bool :=
  if cfg.internal_scrolling ∧ i = 3 then acc
  else
    let cur := (btn &&& bimask.getD i 0) != 0
    let old := acc.2.getD i false
    let evs :=
      if !old && cur then [Event.press (bomask.getD i 0)]
      else if old && !cur then [Event.release (bomask.getD i 0)]
      else []
    (acc.1 ++ evs, acc.2.set i cur)

/-- The ordinary-motion translation of `loop()` (`marble_fx.ino` lines
594-630): button mapping, scroll emulation or motion emission, and the
button-edge loop — the path every Report takes after passing the
extended-protocol, suspend and overflow guards. -/
def motionPath (cfg : Config) (s : LoopState) (mstat mx my : Nat) :
    List Event × LoopState :=
  let btn := map_buttons cfg.lefthanded mstat s.xtrabutton
  let redbutton := (btn &&& 0x10) != 0
  let (moveEvs, sum1) :=
    if cfg.internal_scrolling && redbutton then
      -- int8_t scroll = my / 8; C division truncates toward zero
      let myS := toInt8 my
      let scroll := myS.tdiv 8
      let (scroll, acc) :=
        if scroll = 0 then
          let acc := wrapInt8 (s.scroll_sum + myS)  -- scroll_sum += my (int8_t)
          (acc.tdiv 8, acc)
        else (scroll, s.scroll_sum)
      if scroll ≠ 0 then ([Event.move 0 0 scroll], (0 : Int))
      else ([], acc)
    else
      let mxS := toInt8 mx
      let myS := toInt8 my
      (if mxS ≠ 0 ∨ myS ≠ 0 then [Event.move mxS (wrapInt8 (-myS)) 0] else [],
       (0 : Int))
  let (btnEvs, buttons1) := [0, 1, 2, 3].foldl (buttonStep cfg btn) ([], s.buttons)
  (moveEvs ++ btnEvs, { s with scroll_sum := sum1, buttons := buttons1 })

/-- The report-handling block of `loop()` for one 3-byte report
`(mstat, mx, my)` (raw bytes).  Returns the emitted host events in
order, and the updated globals. -/
def processReport (cfg : Config) (s : LoopState) (mstat mx my : Nat) :
    List Event × LoopState :=
  let (handled, xtra1) := ps2pp_decode s.xtrabutton mstat mx my
  if handled then ([], { s with xtrabutton := xtra1 })
  else if cfg.suspended then ([], s)
  else if mstat &&& 0xC0 ≠ 0 then ([], { s with ps2_error := mstat })
  else motionPath cfg s mstat mx my

/-- Process a list of reports in sequence, concatenating the events. -/
def processReports (cfg : Config) (s : LoopState) :
    List (Nat × Nat × Nat) → List Event × LoopState
  | [] => ([], s)
  | r :: rs =>
    let (evs, s1) := processReport cfg s r.1 r.2.1 r.2.2
    let (evs2, s2) := processReports cfg s1 rs
    (evs ++ evs2, s2)

/-- Configuration during scroll-emulation scenarios: right-handed,
internal scrolling enabled, host awake. -/
def cfgScroll : Config := ⟨false, true, false⟩

/-- Same switches but with the host reporting the suspended state. -/
def cfgSuspended : Config := ⟨false, true, true⟩

/-- Loop globals with the red (scroll-role) auxiliary button held
(`xtrabutton = 0x10`), all logical buttons up, accumulator clear. -/
def sScroll : LoopState := ⟨0x10, [false, false, false, false], 0, 0⟩

/-- Loop globals with no auxiliary button held. -/
def sPlain : LoopState := ⟨0, [false, false, false, false], 0, 0⟩


/-! ## Idle-Prevention Timer: class `MyTimer` and the jiggle block

`count` is an `int` in C but only ever holds non-negative values
(initialised to 0, reset to 0, incremented), so it is modelled as `Nat`.
`millis()` timestamps are `Nat` milliseconds; the code's unsigned
`now - start_time` matches `Nat` subtraction on the monotone runs
considered here (`now ≥ start_time`).  The catch-up `while` loop
`while (now - start_time >= 30000) { count++; start_time += 30000; }`
is embedded by its exact closed form: it runs `(now - start_time) / 30000`
times. -/

structure MyTimer where
  start_time : Nat
  count : Nat
  enabled : Bool
deriving Repr, DecidableEq

/-- `MyTimer::reset` at time `now`. -/
def MyTimer.reset (t : MyTimer) (now : Nat) : MyTimer :=
  { t with start_time := now, count := 0 }

/-- `MyTimer::action` called when `millis()` returns `now`. -/
def MyTimer.action (t : MyTimer) (now : Nat) : Bool × MyTimer :=
  if t.enabled = false ∨ t.count > 60 then (false, t)
  else if now - t.start_time < 30000 then (false, t)
  else
    let k := (now - t.start_time) / 30000
    let t1 := { t with count := t.count + k, start_time := t.start_time + 30000 * k }
    (decide (t1.count < 60), t1)

/-- The jiggle block at the end of `loop()`:
`if (jiggletimer.action()) { if (!USBDevice.isSuspended()) { Mouse.move(1,0,0); Mouse.move(-1,0,0); } }`. -/
def jiggleStep (suspended : Bool) (t : MyTimer) (now : Nat) : List Event × MyTimer :=
  let (fire, t1) := t.action now
  (if fire = true ∧ suspended = false then [Event.move 1 0 0, Event.move (-1) 0 0] else [],
   t1)

/-- Run the jiggle block once per loop iteration, at the given
`millis()` timestamps. -/
def runJiggle (suspended : Bool) (t : MyTimer) : List Nat → List Event × MyTimer
  | [] => ([], t)
  | now :: rest =>
    let (evs, t1) := jiggleStep suspended t now
    let (evs2, t2) := runJiggle suspended t1 rest
    (evs ++ evs2, t2)

/-- Iteration timestamps with exactly one loop iteration inside each
30-second window after the last real event at `t0`: the `(i + j)`-th
iteration happens at `t0 + 30000 * (i + j + 1) + d (i + j)` with jitter
`d` below 30000. -/
def jiggleTimes (t0 : Nat) (d : Nat → Nat) (i : Nat) : Nat → List Nat
  | 0 => []
  | n + 1 => (t0 + 30000 * (i + 1) + d i) :: jiggleTimes t0 d (i + 1) n

/-- Timer state immediately after a real event at time `t0`
(`move()` calls `jiggletimer.reset()`). -/
def jiggleReset (t0 : Nat) : MyTimer := ⟨t0, 0, true⟩


/-! ## Spec-side definitions and proof helpers -/

/-- Modelled from the spec's §4.6 wording, amended only in that the input
is the Report's raw delta-Y (the code applies no inversion in the scroll
path): primary tick is delta-Y over 8 truncating toward zero; if the
primary tick is zero the delta-Y is added into the accumulator (an
`int8_t`) and the tick recomputed as accumulator over 8; a nonzero tick
is emitted as one wheel event and clears the accumulator. -/
def scrollEmuSpec (acc dY : Int) : List Event × Int :=
  let tick := dY.tdiv 8
  if tick ≠ 0 then ([Event.move 0 0 tick], 0)
  else
    let acc1 := wrapInt8 (acc + dY)
    let tick1 := acc1.tdiv 8
    if tick1 ≠ 0 then ([Event.move 0 0 tick1], 0) else ([], acc1)

/-- Store the bytes of `l` at consecutive indices starting at `h`. -/
def writeFrom (buf : Nat → Nat) (h : Nat) : List Nat → (Nat → Nat)
  | [] => buf
  | x :: xs => writeFrom (updateAt buf h x) (h + 1) xs

/-- Read `n` bytes at consecutive indices starting at `t`. -/
def readFrom (buf : Nat → Nat) (t : Nat) : Nat → List Nat
  | 0 => []
  | n + 1 => buf t :: readFrom buf (t + 1) n

/-! ## Ring-buffer lemmas -/

theorem pushAll_writeFrom (l : List Nat) :
    ∀ (buf : Nat → Nat) (h : Nat), h + l.length ≤ 15 →
      Mousebuffer.pushAll ⟨buf, h, 0⟩ l = ⟨writeFrom buf h l, h + l.length, 0⟩ := by
  induction l with
  | nil => intro buf h _; simp [Mousebuffer.pushAll, writeFrom]
  | cons x xs ih =>
    intro buf h hle
    simp only [List.length_cons] at hle
    have hlt : h + 1 < 16 := by omega
    have hpush : Mousebuffer.push ⟨buf, h, 0⟩ x = ⟨updateAt buf h x, h + 1, 0⟩ := by
      simp [Mousebuffer.push, Nat.mod_eq_of_lt hlt]
    have := ih (updateAt buf h x) (h + 1) (by omega)
    calc Mousebuffer.pushAll ⟨buf, h, 0⟩ (x :: xs)
        = Mousebuffer.pushAll ⟨updateAt buf h x, h + 1, 0⟩ xs := by
          simp [Mousebuffer.pushAll, hpush]
      _ = ⟨writeFrom (updateAt buf h x) (h + 1) xs, (h + 1) + xs.length, 0⟩ := this
      _ = ⟨writeFrom buf h (x :: xs), h + (x :: xs).length, 0⟩ := by
          simp [writeFrom]; omega

theorem pullN_readFrom :
    ∀ (n : Nat) (buf : Nat → Nat) (hd t : Nat), t + n ≤ hd → hd ≤ 15 →
      (Mousebuffer.pullN ⟨buf, hd, t⟩ n).1 = readFrom buf t n := by
  intro n
  induction n with
  | zero => intro buf hd t _ _; simp [Mousebuffer.pullN, readFrom]
  | succ n ih =>
    intro buf hd t hle hhd
    have hne : hd ≠ t := by omega
    have hlt : t + 1 < 16 := by omega
    have hpull : Mousebuffer.pull ⟨buf, hd, t⟩ = (buf t, ⟨buf, hd, t + 1⟩) := by
      simp [Mousebuffer.pull, hne, Nat.mod_eq_of_lt hlt]
    simp only [Mousebuffer.pullN, hpull, readFrom, List.cons.injEq]
    exact ⟨trivial, ih buf hd (t + 1) (by omega) hhd⟩

theorem writeFrom_below (l : List Nat) :
    ∀ (buf : Nat → Nat) (h i : Nat), i < h → writeFrom buf h l i = buf i := by
  induction l with
  | nil => intro buf h i _; rfl
  | cons x xs ih =>
    intro buf h i hi
    simp only [writeFrom]
    rw [ih (updateAt buf h x) (h + 1) i (by omega)]
    simp [updateAt, Nat.ne_of_lt hi]

theorem readFrom_writeFrom (l : List Nat) :
    ∀ (buf : Nat → Nat) (h : Nat),
      readFrom (writeFrom buf h l) h l.length = l := by
  induction l with
  | nil => intro buf h; rfl
  | cons x xs ih =>
    intro buf h
    simp only [writeFrom, List.length_cons, readFrom, List.cons.injEq]
    constructor
    · rw [writeFrom_below xs (updateAt buf h x) (h + 1) h (by omega)]
      simp [updateAt]
    · exact ih (updateAt buf h x) (h + 1)

/-! ## Idle-timer lemmas -/

/-- A call in the window after the `(i+1)`-st threshold fires the timer
once: the catch-up loop runs exactly once and the counter advances to
`i + 1`. -/
theorem action_fire (t0 i delta : Nat) (hi : i ≤ 58) (hdelta : delta < 30000) :
    MyTimer.action ⟨t0 + 30000 * i, i, true⟩ (t0 + 30000 * (i + 1) + delta)
      = (true, ⟨t0 + 30000 * (i + 1), i + 1, true⟩) := by
  unfold MyTimer.action
  dsimp only
  have h1 : ¬((true : Bool) = false ∨ i > 60) := by simp; omega
  rw [if_neg h1]
  have h2 : t0 + 30000 * (i + 1) + delta - (t0 + 30000 * i) = 30000 + delta := by omega
  simp only [h2]
  rw [if_neg (by omega)]
  have h3 : (30000 + delta) / 30000 = 1 := by omega
  simp only [h3]
  simp only [decide_eq_true_eq, Prod.mk.injEq, MyTimer.mk.injEq]
  exact ⟨by omega, by omega, trivial, trivial⟩

/-- Running the jiggle block once per 30-second window from a reset at
`t0`: each call emits one synthetic nudge of +1 then -1 (none while the
host is suspended) and advances the timer by one window. -/
theorem runJiggle_windows (susp : Bool) (t0 : Nat) (d : Nat → Nat)
    (hd : ∀ j, d j < 30000) :
    ∀ (n i : Nat), i + n ≤ 59 →
      runJiggle susp ⟨t0 + 30000 * i, i, true⟩ (jiggleTimes t0 d i n)
        = ((if susp = true then []
            else (List.replicate n [Event.move 1 0 0, Event.move (-1) 0 0]).flatten),
           ⟨t0 + 30000 * (i + n), i + n, true⟩) := by
  intro n
  induction n with
  | zero =>
    intro i _
    cases susp <;> simp [runJiggle, jiggleTimes]
  | succ n ih =>
    intro i hle
    have hact := action_fire t0 i (d i) (by omega) (hd i)
    simp only [jiggleTimes, runJiggle, jiggleStep, hact]
    rw [ih (i + 1) (by omega)]
    have harith : i + 1 + n = i + (n + 1) := by omega
    cases susp <;> simp [List.replicate_succ, harith]

/-! ## Button-mapping lemmas -/

/-- `map_buttons` only reads the low three primary bits and the two
auxiliary bits 0x10/0x20, so masking its inputs accordingly does not
change its result. -/
theorem map_buttons_masks (lh : Bool) (mstat xtra : Nat) :
    map_buttons lh (mstat &&& 7) (xtra &&& 48) = map_buttons lh mstat xtra := by
  have h1 : (48 : Nat) &&& 16 = 16 := by decide
  have h2 : (48 : Nat) &&& 32 = 32 := by decide
  have h3 : (7 : Nat) &&& 2 = 2 := by decide
  have h4 : (7 : Nat) &&& 1 = 1 := by decide
  have h5 : (7 : Nat) &&& 7 = 7 := by decide
  simp [map_buttons, Nat.and_assoc, h1, h2, h3, h4, h5]

/-- The swap/exchange relation of claim C5, checked over the masked
input ranges. -/
theorem swap_exchange_bounded :
    (∀ a : Nat, a < 8 → ∀ b : Nat, b < 64 →
       a &&& 4 = 0 →
       map_buttons true a b = exchangeLR_MS (map_buttons false a b)) ∧
    (∀ (lh : Bool), ∀ a : Nat, a < 8 → ∀ b : Nat, b < 64 →
       exchangeLR_MS (exchangeLR_MS (map_buttons lh a b)) = map_buttons lh a b) := by
  constructor
  · decide
  · decide

/-! ## Claims -/

/-- C1: for every 11-bit frame with a 0 start bit, 8 data bits (LSB
first), a correct odd-parity bit and a 1 stop bit, the Link Receiver ISR
pushes exactly the original data byte onto the Mailbox, records no error,
and ends in the idle state; for every frame corrupted by an inverted
start bit, an inverted stop bit, or a wrong parity bit, it records a
nonzero error code and pushes nothing; and every invocation that flags
an error or completes a byte resets the bit-position counter, the data
accumulator and the running parity to the idle state before returning. -/
theorem C1_receiver_frames :
    (∀ b : Nat, b < 256 →
       runISR isrIdle (validFrame b) = { isrIdle with pushed := [b] }) ∧
    (∀ b : Nat, b < 256 →
       (runISR isrIdle (invStartFrame b)).pushed = [] ∧
       (runISR isrIdle (invStartFrame b)).ps2_error ≠ 0) ∧
    (∀ b : Nat, b < 256 →
       (runISR isrIdle (invStopFrame b)).pushed = [] ∧
       (runISR isrIdle (invStopFrame b)).ps2_error ≠ 0) ∧
    (∀ b : Nat, b < 256 →
       (runISR isrIdle (wrongParityFrame b)).pushed = [] ∧
       (runISR isrIdle (wrongParityFrame b)).ps2_error ≠ 0) ∧
    (∀ (s : IsrState) (d : Bool),
       (ps2_ISR s d).ps2_error ≠ s.ps2_error ∨ (ps2_ISR s d).pushed ≠ s.pushed →
       (ps2_ISR s d).bit = 0 ∧ (ps2_ISR s d).data = 0 ∧ (ps2_ISR s d).parity = false) := by
  refine ⟨by decide, by decide, by decide, by decide, ?_⟩
  intro s d h
  simp only [ps2_ISR, isrFail] at h ⊢
  split_ifs at h ⊢ <;> simp_all

/-- C1 witness: the theorem applied to the byte 0xA5 and, for the reset
clause, to a spurious edge in the idle state. -/
theorem C1_receiver_frames_witness :
    runISR isrIdle (validFrame 165) = { isrIdle with pushed := [165] } ∧
    ((runISR isrIdle (invStartFrame 1)).pushed = [] ∧
     (runISR isrIdle (invStartFrame 1)).ps2_error ≠ 0) ∧
    ((runISR isrIdle (invStopFrame 255)).pushed = [] ∧
     (runISR isrIdle (invStopFrame 255)).ps2_error ≠ 0) ∧
    ((runISR isrIdle (wrongParityFrame 23)).pushed = [] ∧
     (runISR isrIdle (wrongParityFrame 23)).ps2_error ≠ 0) ∧
    ((ps2_ISR isrIdle true).bit = 0 ∧ (ps2_ISR isrIdle true).data = 0 ∧
     (ps2_ISR isrIdle true).parity = false) :=
  ⟨C1_receiver_frames.1 165 (by decide),
   C1_receiver_frames.2.1 1 (by decide),
   C1_receiver_frames.2.2.1 255 (by decide),
   C1_receiver_frames.2.2.2.1 23 (by decide),
   C1_receiver_frames.2.2.2.2 isrIdle true (Or.inl (by decide))⟩

/-- C2 counterexample: the ring buffer keeps one of its 16 slots free,
so pushing 16 bytes into the empty Mailbox drops the 16th byte; the 16
subsequent pulls return the first 15 bytes followed by the empty-buffer
default 0 instead of the 16 pushed bytes. -/
theorem C2_sixteen_pushes_counterexample :
    (Mousebuffer.pullN
        (mbufInit.pushAll [1, 2, 3, 4, 5, 6, 7, 8, 9, 10, 11, 12, 13, 14, 15, 16]) 16).1
      = [1, 2, 3, 4, 5, 6, 7, 8, 9, 10, 11, 12, 13, 14, 15, 0] ∧
    (Mousebuffer.pullN
        (mbufInit.pushAll [1, 2, 3, 4, 5, 6, 7, 8, 9, 10, 11, 12, 13, 14, 15, 16]) 16).1
      ≠ [1, 2, 3, 4, 5, 6, 7, 8, 9, 10, 11, 12, 13, 14, 15, 16] := by
  constructor
  · decide
  · decide

/-- C2 (amended): for every sequence of N byte pushes (values below 256,
where the model and the `uint8_t` array agree) with N ≤ 15 — the
effective capacity of the 16-slot ring, which keeps one slot free to
distinguish full from empty — into an initially empty Mailbox, followed
by N pulls, the pulls return the pushed bytes unchanged and in FIFO
order; pushing when the buffer is at capacity (15 buffered bytes, the
slot after `head` is `tail`) drops the newly pushed byte and leaves
every already-buffered byte and the head/tail indices unchanged, so the
15 subsequent pulls still return the 15 buffered bytes. -/
theorem C2_mailbox_fifo :
    (∀ l : List Nat, l.length ≤ 15 → (∀ b ∈ l, b < 256) →
       (Mousebuffer.pullN (mbufInit.pushAll l) l.length).1 = l) ∧
    (∀ (l : List Nat) (d : Nat), l.length = 15 → (∀ b ∈ l, b < 256) →
       (mbufInit.pushAll l).push d = mbufInit.pushAll l ∧
       (Mousebuffer.pullN ((mbufInit.pushAll l).push d) 15).1 = l) ∧
    (∀ (s : Mousebuffer) (d : Nat), (s.head + 1) % 16 = s.tail →
       s.push d = s) := by
  refine ⟨?_, ?_, ?_⟩
  · intro l hl _
    have hpush := pushAll_writeFrom l (fun _ => 0) 0 (by omega)
    simp only [Nat.zero_add] at hpush
    show (Mousebuffer.pullN (Mousebuffer.pushAll ⟨fun _ => 0, 0, 0⟩ l) l.length).1 = l
    rw [hpush, pullN_readFrom l.length _ l.length 0 (by omega) hl,
        readFrom_writeFrom]
  · intro l d hl _
    have hpushl := pushAll_writeFrom l (fun _ => 0) 0 (by omega)
    simp only [Nat.zero_add, hl] at hpushl
    have hfull : Mousebuffer.push ⟨writeFrom (fun _ => 0) 0 l, 15, 0⟩ d
        = ⟨writeFrom (fun _ => 0) 0 l, 15, 0⟩ := by
      simp [Mousebuffer.push]
    have hread := readFrom_writeFrom l (fun _ => 0) 0
    rw [hl] at hread
    constructor
    · show Mousebuffer.push (Mousebuffer.pushAll ⟨fun _ => 0, 0, 0⟩ l) d
          = Mousebuffer.pushAll ⟨fun _ => 0, 0, 0⟩ l
      rw [hpushl, hfull]
    · show (Mousebuffer.pullN
          (Mousebuffer.push (Mousebuffer.pushAll ⟨fun _ => 0, 0, 0⟩ l) d) 15).1 = l
      rw [hpushl, hfull, pullN_readFrom 15 _ 15 0 (by omega) (by omega), hread]
  · intro s d h
    simp [Mousebuffer.push, h]

/-- C2 witness: FIFO at the concrete byte sequence [3, 1, 4], the
dropped 16th push on the concretely full buffer holding 1..15 (whose 15
pulls still return 1..15), and the drop clause at a concrete full
state. -/
theorem C2_mailbox_fifo_witness :
    (Mousebuffer.pullN (mbufInit.pushAll [3, 1, 4]) 3).1 = [3, 1, 4] ∧
    ((mbufInit.pushAll [1, 2, 3, 4, 5, 6, 7, 8, 9, 10, 11, 12, 13, 14, 15]).push 99
       = mbufInit.pushAll [1, 2, 3, 4, 5, 6, 7, 8, 9, 10, 11, 12, 13, 14, 15] ∧
     (Mousebuffer.pullN
        ((mbufInit.pushAll [1, 2, 3, 4, 5, 6, 7, 8, 9, 10, 11, 12, 13, 14, 15]).push 99)
        15).1
       = [1, 2, 3, 4, 5, 6, 7, 8, 9, 10, 11, 12, 13, 14, 15]) ∧
    Mousebuffer.push ⟨fun _ => 0, 15, 0⟩ 9 = ⟨fun _ => 0, 15, 0⟩ :=
  ⟨C2_mailbox_fifo.1 [3, 1, 4] (by decide) (by decide),
   C2_mailbox_fifo.2.1 [1, 2, 3, 4, 5, 6, 7, 8, 9, 10, 11, 12, 13, 14, 15] 99
     (by decide) (by decide),
   C2_mailbox_fifo.2.2 ⟨fun _ => 0, 15, 0⟩ 9 (by decide)⟩

/-- C3 counterexample: four consecutive scroll-role-held Reports with
delta-Y = 6 (summing to 24, no single value ≥ 8) do not produce one
wheel event of magnitude 3: the code resets the accumulator to zero on
every nonzero tick and discards the remainder, so the run emits a
magnitude-1 wheel event after the second Report (accumulator 12) and
another after the fourth. -/
theorem C3_scroll24_counterexample :
    (processReports cfgScroll sScroll [(8, 0, 6), (8, 0, 6), (8, 0, 6), (8, 0, 6)]).1
      = [Event.move 0 0 1, Event.move 0 0 1] ∧
    (processReports cfgScroll sScroll [(8, 0, 6), (8, 0, 6), (8, 0, 6), (8, 0, 6)]).1
      ≠ [Event.move 0 0 3] := by
  constructor
  · decide
  · decide

/-- C3 (amended): for the example sequence of four consecutive Reports
with delta-Y = 6 processed while the scroll-role button stays held and
scroll emulation is enabled, starting from a zero Scroll Accumulator,
exactly two wheel events are emitted, each of magnitude 1 (whenever the
accumulator reaches 12, its quotient 1 is emitted and the remainder is
discarded), no motion (dx, dy) events are emitted during the sequence,
and the run ends with the accumulator back at zero. -/
theorem C3_scroll24_two_ticks :
    processReports cfgScroll sScroll [(8, 0, 6), (8, 0, 6), (8, 0, 6), (8, 0, 6)]
      = ([Event.move 0 0 1, Event.move 0 0 1], sScroll) := by
  decide

/-- C4 counterexample: in the state just before the PARITY bit position
(`bit = 9`, running parity flag true after the data bits of 0x80) a
sampled data-line value equal to the running parity flag is rejected
(the ISR records error code 10 = PARITY and resets), contradicting the
claim that equality means acceptance. -/
theorem C4_parity_equal_rejected_counterexample :
    (ps2_ISR ⟨9, 0x80, true, 0, []⟩ true).ps2_error = 10 ∧
    (ps2_ISR ⟨9, 0x80, true, 0, []⟩ true).bit = 0 ∧
    (ps2_ISR ⟨9, 0x80, true, 0, []⟩ true).pushed = [] := by
  decide

/-- C4 (amended): at the PARITY bit position the frame is accepted (no
error flagged, receiver advances to await the stop bit) if and only if
the sampled data-line value DIFFERS from the running parity flag (the
flag is the XOR of the data bits, so the expected odd-parity bit is its
negation); a sampled value equal to the running parity flag causes the
frame to be flagged as an error. -/
theorem C4_parity_check (s : IsrState) (d : Bool)
    (hb : s.bit = 9) (he : s.ps2_error = 0) :
    ((ps2_ISR s d).ps2_error = 0 ↔ d ≠ s.parity) ∧
    ((ps2_ISR s d).bit = 10 ↔ d ≠ s.parity) := by
  rcases eq_or_ne d s.parity with h | h <;>
    simp [ps2_ISR, isrFail, hb, he, h]

/-- C4 witness: the amended theorem at the concrete pre-PARITY state
with parity flag false and sampled value true (accepted). -/
theorem C4_parity_check_witness :
    ((ps2_ISR ⟨9, 0, false, 0, []⟩ true).ps2_error = 0 ↔ true ≠ (false : Bool)) ∧
    ((ps2_ISR ⟨9, 0, false, 0, []⟩ true).bit = 10 ↔ true ≠ (false : Bool)) :=
  C4_parity_check ⟨9, 0, false, 0, []⟩ true rfl rfl

/-- C5 counterexample: with the primary middle-button bit set
(`mstat = 0x04`, no auxiliary bits) the unswapped mapping reports the
middle button, but the swapped mapping drops the bit entirely instead of
exchanging it into the scroll-role bit. -/
theorem C5_swap_counterexample :
    map_buttons true 0x04 0 = 0 ∧
    map_buttons false 0x04 0 = 0x04 ∧
    exchangeLR_MS (map_buttons false 0x04 0) = 0x10 ∧
    map_buttons true 0x04 0 ≠ exchangeLR_MS (map_buttons false 0x04 0) := by
  decide

/-- C5 (amended): for every pair of raw input bytes whose primary status
byte has the middle-button bit 0x04 clear, the mapping with handedness
swap active equals the mapping without swap followed by exchanging the
left and right logical bits and exchanging the middle and scroll-role
logical bits (the primary middle bit, when set, passes through only in
the unswapped mapping and is dropped by the swapped one); performing
that exchange twice on any mapped logical button set returns the
original mapping. -/
theorem C5_swap_exchange :
    (∀ mstat : Nat, mstat < 256 → ∀ xtra : Nat, xtra < 256 →
       mstat &&& 0x04 = 0 →
       map_buttons true mstat xtra = exchangeLR_MS (map_buttons false mstat xtra)) ∧
    (∀ (lh : Bool), ∀ mstat : Nat, mstat < 256 → ∀ xtra : Nat, xtra < 256 →
       exchangeLR_MS (exchangeLR_MS (map_buttons lh mstat xtra))
         = map_buttons lh mstat xtra) := by
  have hm7 : ∀ m : Nat, m &&& 7 < 8 := fun m =>
    Nat.lt_succ_of_le (Nat.and_le_right)
  have hx48 : ∀ x : Nat, x &&& 48 < 64 := fun x =>
    Nat.lt_of_le_of_lt (Nat.and_le_right) (by omega)
  constructor
  · intro mstat _ xtra _ hm
    have hm4 : (mstat &&& 7) &&& 4 = 0 := by
      rw [Nat.and_assoc]; simpa using hm
    calc map_buttons true mstat xtra
        = map_buttons true (mstat &&& 7) (xtra &&& 48) :=
          (map_buttons_masks true mstat xtra).symm
      _ = exchangeLR_MS (map_buttons false (mstat &&& 7) (xtra &&& 48)) :=
          swap_exchange_bounded.1 _ (hm7 mstat) _ (hx48 xtra) hm4
      _ = exchangeLR_MS (map_buttons false mstat xtra) := by
          rw [map_buttons_masks]
  · intro lh mstat _ xtra _
    rw [← map_buttons_masks lh mstat xtra]
    exact swap_exchange_bounded.2 lh _ (hm7 mstat) _ (hx48 xtra)

/-- C5 witness: the amended theorem at left+right held with both
auxiliary buttons held. -/
theorem C5_swap_exchange_witness :
    map_buttons true 3 48 = exchangeLR_MS (map_buttons false 3 48) ∧
    exchangeLR_MS (exchangeLR_MS (map_buttons true 3 48)) = map_buttons true 3 48 :=
  ⟨C5_swap_exchange.1 3 (by decide) 48 (by decide) (by decide),
   C5_swap_exchange.2 true 3 (by decide) 48 (by decide)⟩

/-- C6 counterexample: two non-tag-matching Reports that are NOT
processed as ordinary motion.  `mstat = 0x40` fails the tag test but
carries an overflow bit, so `loop()` records it as a link error
(`ps2_error = 0x40`) and emits nothing; and the same non-matching motion
Report arriving while the host is suspended is discarded.  Ordinary
motion processing of (mstat 0x40 resp. 8, dx 1, dy 1) would emit
`move 1 (-1) 0`. -/
theorem C6_ordinary_motion_counterexample :
    (ps2pp_decode sPlain.xtrabutton 0x40 1 1).1 = false ∧
    (processReport cfgScroll sPlain 0x40 1 1).1 = [] ∧
    (processReport cfgScroll sPlain 0x40 1 1).2.ps2_error = 0x40 ∧
    (processReport cfgScroll sPlain 0x40 1 1).1
      ≠ (motionPath cfgScroll sPlain 0x40 1 1).1 ∧
    (ps2pp_decode sPlain.xtrabutton 8 1 1).1 = false ∧
    (processReport cfgSuspended sPlain 8 1 1).1 = [] ∧
    (processReport cfgSuspended sPlain 8 1 1).1
      ≠ (motionPath cfgSuspended sPlain 8 1 1).1 := by
  refine ⟨by decide, by decide, by decide, by decide, by decide, by decide, by decide⟩

/-- C6 (amended): a 3-byte Report whose byte0/byte1 match the
extended-protocol tag pattern is reported as handled, so the loop emits
no motion, wheel or button event for it; when the packet additionally
carries the auxiliary-button subtype tag, exactly the bits of byte2
under mask 0x30 become the new auxiliary button state; a Report not
matching the tag pattern is reported as not extended with the stored
auxiliary state unchanged, and — provided the host is not suspended and
the status byte's overflow bits (mask 0xC0) are clear — it is processed
as ordinary motion (the button/motion translation path). -/
theorem C6_extended_decode :
    (∀ x b0 b1 b2 : Nat, b0 &&& 0x48 = 0x48 → b1 &&& 0x02 = 0x02 →
       (ps2pp_decode x b0 b1 b2).1 = true) ∧
    (∀ x b0 b1 b2 : Nat, b0 &&& 0x48 = 0x48 → b1 &&& 0x02 = 0x02 →
       b0 &&& 0x30 = 0 → b1 &&& 0xf0 = 0xd0 →
       (ps2pp_decode x b0 b1 b2).2 = b2 &&& 0x30) ∧
    (∀ x b0 b1 b2 : Nat, ¬(b0 &&& 0x48 = 0x48 ∧ b1 &&& 0x02 = 0x02) →
       ps2pp_decode x b0 b1 b2 = (false, x)) ∧
    (∀ (cfg : Config) (s : LoopState) (mstat mx my : Nat),
       (ps2pp_decode s.xtrabutton mstat mx my).1 = true →
       (processReport cfg s mstat mx my).1 = [] ∧
       (processReport cfg s mstat mx my).2.xtrabutton
         = (ps2pp_decode s.xtrabutton mstat mx my).2) ∧
    (∀ (cfg : Config) (s : LoopState) (mstat mx my : Nat),
       (ps2pp_decode s.xtrabutton mstat mx my).1 = false →
       cfg.suspended = false → mstat &&& 0xC0 = 0 →
       processReport cfg s mstat mx my = motionPath cfg s mstat mx my) := by
  refine ⟨?_, ?_, ?_, ?_, ?_⟩
  · intro x b0 b1 b2 ha hb
    unfold ps2pp_decode
    rw [if_neg (by simp [ha, hb])]
    split <;> rfl
  · intro x b0 b1 b2 ha hb hc hd
    unfold ps2pp_decode
    rw [if_neg (by simp [ha, hb]), if_pos ⟨hc, hd⟩]
  · intro x b0 b1 b2 h
    unfold ps2pp_decode
    rw [if_pos h]
  · intro cfg s mstat mx my h
    rcases hE : ps2pp_decode s.xtrabutton mstat mx my with ⟨hd, x1⟩
    rw [hE] at h
    cases hd with
    | false => simp at h
    | true => simp [processReport, hE]
  · intro cfg s mstat mx my h hsusp hovf
    rcases hE : ps2pp_decode s.xtrabutton mstat mx my with ⟨hd, x1⟩
    rw [hE] at h
    cases hd with
    | true => simp at h
    | false => simp [processReport, hE, hsusp, hovf]

/-- C6 witness: a subtype-tagged extended packet with byte2 = 0xFF,
a non-matching Report, suppression of all events for a handled packet,
and ordinary-motion processing of a clean non-matching Report. -/
theorem C6_extended_decode_witness :
    (ps2pp_decode 0 0x48 0xd2 0xff).1 = true ∧
    (ps2pp_decode 0 0x48 0xd2 0xff).2 = 0xff &&& 0x30 ∧
    ps2pp_decode 5 8 0 0 = (false, 5) ∧
    ((processReport cfgScroll sPlain 0x48 0xd2 0).1 = [] ∧
     (processReport cfgScroll sPlain 0x48 0xd2 0).2.xtrabutton
       = (ps2pp_decode sPlain.xtrabutton 0x48 0xd2 0).2) ∧
    processReport cfgScroll sPlain 8 1 1 = motionPath cfgScroll sPlain 8 1 1 :=
  ⟨C6_extended_decode.1 0 0x48 0xd2 0xff (by decide) (by decide),
   C6_extended_decode.2.1 0 0x48 0xd2 0xff (by decide) (by decide) (by decide) (by decide),
   C6_extended_decode.2.2.1 5 8 0 0 (by decide),
   C6_extended_decode.2.2.2.1 cfgScroll sPlain 0x48 0xd2 0 (by decide),
   C6_extended_decode.2.2.2.2 cfgScroll sPlain 8 1 1 (by decide) rfl (by decide)⟩

/-- C7: in a run with no real motion or button events, with one loop
iteration inside each 30-second window after the last real event and
`N ≤ 59` (the timer's bound: it fires while `count < 60`), after the
iteration that exceeds the Nth threshold exactly N synthetic nudges have
been emitted, each +1 then -1 on the X axis for zero net displacement;
with the host-suspended flag set throughout, zero nudges are emitted;
and iterations that fall inside a window (elapsed below 30 s) emit
nothing and leave the timer unchanged. -/
theorem C7_idle_jiggle :
    (∀ (t0 N : Nat) (d : Nat → Nat), N ≤ 59 → (∀ j, d j < 30000) →
       (runJiggle false (jiggleReset t0) (jiggleTimes t0 d 0 N)).1
         = (List.replicate N [Event.move 1 0 0, Event.move (-1) 0 0]).flatten) ∧
    (∀ (t0 N : Nat) (d : Nat → Nat), N ≤ 59 → (∀ j, d j < 30000) →
       (runJiggle true (jiggleReset t0) (jiggleTimes t0 d 0 N)).1 = []) ∧
    (∀ (susp : Bool) (t : MyTimer) (now : Nat), now - t.start_time < 30000 →
       jiggleStep susp t now = ([], t)) := by
  refine ⟨?_, ?_, ?_⟩
  · intro t0 N d hN hd
    have h := runJiggle_windows false t0 d hd N 0 (by omega)
    simp only [Nat.mul_zero, Nat.add_zero, Nat.zero_add] at h
    have h2 := congrArg Prod.fst h
    simpa [jiggleReset] using h2
  · intro t0 N d hN hd
    have h := runJiggle_windows true t0 d hd N 0 (by omega)
    simp only [Nat.mul_zero, Nat.add_zero, Nat.zero_add] at h
    have h2 := congrArg Prod.fst h
    simpa [jiggleReset] using h2
  · intro susp t now h
    by_cases h1 : t.enabled = false ∨ t.count > 60
    · simp [jiggleStep, MyTimer.action, h1]
    · simp [jiggleStep, MyTimer.action, h1, h]

/-- C7 witness: one window with the host awake yields one nudge, with
the host suspended none; an early iteration at 100 ms is a no-op. -/
theorem C7_idle_jiggle_witness :
    (runJiggle false (jiggleReset 0) (jiggleTimes 0 (fun _ => 0) 0 1)).1
      = (List.replicate 1 [Event.move 1 0 0, Event.move (-1) 0 0]).flatten ∧
    (runJiggle true (jiggleReset 0) (jiggleTimes 0 (fun _ => 0) 0 1)).1 = [] ∧
    jiggleStep false (jiggleReset 0) 100 = ([], jiggleReset 0) :=
  ⟨C7_idle_jiggle.1 0 1 (fun _ => 0) (by decide) (fun _ => show (0:Nat) < 30000 by decide),
   C7_idle_jiggle.2.1 0 1 (fun _ => 0) (by decide) (fun _ => show (0:Nat) < 30000 by decide),
   C7_idle_jiggle.2.2 false (jiggleReset 0) 100 (by decide)⟩

/-- C8 counterexample: a scroll-role-held Report with raw delta-Y = 16
makes the code emit a wheel event of magnitude 16 / 8 = +2, not
(-16) / 8 = -2 as the claimed inverted-delta-Y input would give: the
scroll path divides the raw, uninverted delta-Y. -/
theorem C8_inverted_input_counterexample :
    (processReport cfgScroll sScroll 8 0 16).1 = [Event.move 0 0 2] ∧
    (processReport cfgScroll sScroll 8 0 16).1
      ≠ [Event.move 0 0 ((-(toInt8 16)).tdiv 8)] := by
  constructor
  · decide
  · decide

/-- C8 (amended): for every motion Report processed while the scroll-role
button is held (scroll emulation enabled) and the Scroll Accumulator is
zero, the Scroll Emulator's input is the RAW delta-Y of the Report (no
inversion is applied in the scroll path), the primary wheel tick equals
that delta-Y divided by 8 truncating toward zero, and when the primary
tick is zero the delta-Y is added into the accumulator and the tick
recomputed as accumulator divided by 8 — as captured by the spec-side
function `scrollEmuSpec` applied to the raw delta-Y. -/
theorem C8_scroll_raw_input :
    ∀ my : Nat, my < 256 →
      (processReport cfgScroll sScroll 8 0 my).1 = (scrollEmuSpec 0 (toInt8 my)).1 ∧
      (processReport cfgScroll sScroll 8 0 my).2.scroll_sum
        = (scrollEmuSpec 0 (toInt8 my)).2 := by
  decide

/-- C8 witness: the amended theorem at raw delta-Y = 16. -/
theorem C8_scroll_raw_input_witness :
    (processReport cfgScroll sScroll 8 0 16).1 = (scrollEmuSpec 0 (toInt8 16)).1 ∧
    (processReport cfgScroll sScroll 8 0 16).2.scroll_sum
      = (scrollEmuSpec 0 (toInt8 16)).2 :=
  C8_scroll_raw_input 16 (by decide)

/-- C9: when no byte arrives within `mouse_ready`'s bounded wait, the
loop-context fetch `mouse_read` returns 0 with no separate error
indication, so a timeout is indistinguishable at the call site from a
genuinely received 0x00 byte. -/
theorem C9_mouse_read_timeout :
    (∀ s : Mousebuffer, s.head = s.tail → mouse_read s = (0, s)) ∧
    (mouse_read (mbufInit.push 0)).1 = 0 ∧
    (mouse_read mbufInit).1 = (mouse_read (mbufInit.push 0)).1 := by
  refine ⟨?_, by decide, by decide⟩
  intro s h
  simp [mouse_read, mouse_ready, Mousebuffer.isEmpty, h]

/-- C9 witness: the timeout clause at the empty initial Mailbox. -/
theorem C9_mouse_read_timeout_witness :
    mouse_read mbufInit = (0, mbufInit) :=
  C9_mouse_read_timeout.1 mbufInit rfl

/-- C10: in the non-scroll motion path the emitted vertical value is the
8-bit-wrapped negation of delta-Y: for the single input delta-Y = -128
(byte 128) the negation overflows and the emitted value equals the
uninverted -128, while for every other delta-Y in [-127, 127] the
emitted value is the exact negation. -/
theorem C10_y_inversion_wrap :
    ∀ my : Nat, my < 256 →
      (processReport cfgScroll sPlain 8 1 my).1
        = [Event.move 1 (if toInt8 my = -128 then toInt8 my else -(toInt8 my)) 0] := by
  decide

/-- C10 witness: the theorem at delta-Y byte 128 (-128, wrapping) and at
byte 5 (exact negation). -/
theorem C10_y_inversion_wrap_witness :
    (processReport cfgScroll sPlain 8 1 128).1
      = [Event.move 1 (if toInt8 128 = -128 then toInt8 128 else -(toInt8 128)) 0] ∧
    (processReport cfgScroll sPlain 8 1 5).1
      = [Event.move 1 (if toInt8 5 = -128 then toInt8 5 else -(toInt8 5)) 0] :=
  ⟨C10_y_inversion_wrap 128 (by decide), C10_y_inversion_wrap 5 (by decide)⟩

end MarbleFX
